import Mathlib

/-!
Shallow embedding of the dnsintel DNS analysis tool:
the DNS-over-HTTPS resolver client (`lookupDNS`), the attack-surface
risk heuristic (`analyzeAttackSurface`), the infrastructure graph
builder (`buildGraph`, from the graph-construction section of
`handleAnalyze` in `InfrastructureGraph.tsx`), and the lookup history
(`saveHistory`).

Network I/O is modelled by passing a deterministic oracle: `fetch`
maps an endpoint URL to the outcome of the HTTP request, and `resolve`
maps a `(domain, recordType)` query to a `DNSLookupResult`.  Wall-clock
times (`performance.now`, `Date`) are not modelled: `responseTime` is
fixed to `0` and the `timestamp` field is omitted, since no analysed
behaviour depends on them.
-/

/-- The `RecordType` union from the source. -/
inductive RecordType where
  | A | AAAA | MX | TXT | CNAME | NS | SOA | PTR | SRV
deriving DecidableEq, Repr

/-- `DNSRecord`: `priority` is populated only for MX answers; both the
JavaScript `undefined` (non-MX) and a `NaN` parse result are modelled
as `none`. -/
structure DNSRecord where
  type : String
  name : String
  value : String
  ttl : Nat
  priority : Option Nat := none
deriving DecidableEq, Repr

/-- `DNSLookupResult` (timestamp omitted, responseTime fixed to 0). -/
structure DNSLookupResult where
  domain : String
  recordType : RecordType
  records : List DNSRecord
  responseTime : Nat := 0
  error : Option String := none
deriving DecidableEq, Repr

/-- One element of the upstream `Answer` array of a DNS-over-HTTPS
JSON response: fields `name`, `type`, `TTL`, `data` consumed by the code. -/
structure DoHAnswer where
  type : Nat
  name : String
  data : String
  TTL : Nat
deriving DecidableEq, Repr

/-- The JSON body of a DNS-over-HTTPS response: `Status` plus an
optional `Answer` array.  `answer = some []` models a present-but-empty
array, which is truthy in JavaScript. -/
structure DoHBody where
  status : Nat
  answer : Option (List DoHAnswer)
deriving DecidableEq, Repr

/-- Outcome of one `fetch` against one endpoint: either the transport
throws (caught by the `catch` block), or an HTTP response with a status
code and a parsed JSON body arrives. -/
inductive FetchOutcome where
  | throws (msg : String)
  | response (httpStatus : Nat) (body : DoHBody)
deriving DecidableEq, Repr

/-- `response.ok`: HTTP status in the 2xx range. -/
def httpOk (status : Nat) : Bool := 200 ≤ status && status ≤ 299

/-- The fixed endpoint list `DNS_OVER_HTTPS_SERVERS`. -/
def DNS_OVER_HTTPS_SERVERS : List String :=
  ["https://dns.google/resolve", "https://cloudflare-dns.com/dns-query"]

/-- The static `typeCode` table mapping a record type to its numeric
DNS type code. -/
def typeCode : RecordType → Nat
  | .A => 1
  | .AAAA => 28
  | .MX => 15
  | .TXT => 16
  | .CNAME => 5
  | .NS => 2
  | .SOA => 6
  | .PTR => 12
  | .SRV => 33

/-- The inverse mapping used on answers: the nested conditional chain
`answer.type === 1 ? 'A' : ...`; unrecognized codes map to "UNKNOWN". -/
def typeName (code : Nat) : String :=
  if code = 1 then "A" else if code = 28 then "AAAA"
  else if code = 15 then "MX" else if code = 16 then "TXT"
  else if code = 5 then "CNAME" else if code = 2 then "NS"
  else if code = 6 then "SOA" else if code = 12 then "PTR"
  else if code = 33 then "SRV" else "UNKNOWN"

/-- JavaScript `parseInt` restricted to how the source uses it: the
longest leading run of decimal digits, `none` when there is none (NaN). -/
def jsParseInt (s : String) : Option Nat :=
  let digits := s.data.takeWhile Char.isDigit
  if digits.isEmpty then none
  else some (digits.foldl (fun n c => n * 10 + (c.toNat - 48)) 0)

/-- `data.Answer.map(answer => ...)`: one upstream answer to one
`DNSRecord`; `priority` is parsed from the leading integer of `data`
for MX answers (`answer.type === 15`) only. -/
def mapAnswer (a : DoHAnswer) : DNSRecord :=
  { type := typeName a.type
    name := a.name
    value := a.data
    ttl := a.TTL
    priority := if a.type = 15 then jsParseInt ((a.data.splitOn " ").headD "") else none }

/-- The per-endpoint loop of `lookupDNS`: try each server in order,
accumulating per-endpoint error messages.  A thrown fetch or a non-2xx
HTTP status appends a message and advances; a 2xx body with
`Status = 0` and a present `Answer` returns the mapped records; a 2xx
body with `Status = 3` returns the NXDOMAIN result immediately; any
other 2xx body advances silently (no branch of the `if`/`else if`
matches).  When the list is exhausted the accumulated messages are
joined into the final error string. -/
def lookupAux (fetch : String → FetchOutcome) (domain : String)
    (recordType : RecordType) :
    List String → List String → DNSLookupResult
  | [], errors =>
    { domain := domain, recordType := recordType, records := []
      error := some ("All DNS servers failed: " ++ String.intercalate ", " errors) }
  | server :: rest, errors =>
    match fetch server with
    | .throws msg =>
      lookupAux fetch domain recordType rest
        (errors ++ ["Server " ++ server ++ " failed: " ++ msg])
    | .response httpStatus body =>
      if ¬ httpOk httpStatus then
        lookupAux fetch domain recordType rest
          (errors ++ ["Server " ++ server ++ " returned " ++ toString httpStatus])
      else if h : body.status = 0 ∧ body.answer.isSome then
        { domain := domain, recordType := recordType
          records := (body.answer.get h.2).map mapAnswer }
      else if body.status = 3 then
        { domain := domain, recordType := recordType, records := []
          error := some "NXDOMAIN - Domain does not exist" }
      else
        lookupAux fetch domain recordType rest errors

/-- `lookupDNS(domain, recordType)` with the transport supplied as an
oracle from endpoint URL to outcome. -/
def lookupDNS (fetch : String → FetchOutcome) (domain : String)
    (recordType : RecordType) : DNSLookupResult :=
  lookupAux fetch domain recordType DNS_OVER_HTTPS_SERVERS []

/-- Issue severity levels. -/
inductive Severity where
  | critical | high | medium | low
deriving DecidableEq, Repr

/-- `AttackSurfaceIssue`. -/
structure AttackSurfaceIssue where
  id : String
  severity : Severity
  category : String
  title : String
  description : String
  recommendation : String
deriving DecidableEq, Repr

/-- The `spf` / `dmarc` check shape. -/
structure EmailCheck where
  present : Bool
  valid : Bool
  record : Option String
deriving DecidableEq, Repr

/-- The `dnssec` check shape. -/
structure DnssecCheck where
  present : Bool
  signed : Bool
deriving DecidableEq, Repr

/-- The `mx` / `ns` check shape. -/
structure RecordsCheck where
  present : Bool
  records : List String
deriving DecidableEq, Repr

/-- The `checks` field of `AttackSurfaceResult`. -/
structure AttackChecks where
  spf : EmailCheck
  dmarc : EmailCheck
  dnssec : DnssecCheck
  mx : RecordsCheck
  ns : RecordsCheck
deriving DecidableEq, Repr

/-- `AttackSurfaceResult`. -/
structure AttackSurfaceResult where
  domain : String
  riskScore : Int
  issues : List AttackSurfaceIssue
  checks : AttackChecks
deriving DecidableEq, Repr

/-- The fixed issue pushed when SPF is absent. -/
def spfMissingIssue : AttackSurfaceIssue :=
  { id := "spf-missing", severity := .high, category := "Email Security"
    title := "SPF Record Missing"
    description := "No SPF record found for domain. This could allow email spoofing."
    recommendation := "Add an SPF record to specify authorized mail servers." }

/-- The fixed issue pushed when SPF is present but invalid. -/
def spfInvalidIssue : AttackSurfaceIssue :=
  { id := "spf-invalid", severity := .medium, category := "Email Security"
    title := "SPF Record Invalid"
    description := "SPF record exists but may be misconfigured."
    recommendation := "Review SPF syntax and ensure it covers all authorized servers." }

/-- The fixed issue pushed when DMARC is absent. -/
def dmarcMissingIssue : AttackSurfaceIssue :=
  { id := "dmarc-missing", severity := .high, category := "Email Security"
    title := "DMARC Record Missing"
    description := "No DMARC record found. This leaves domain vulnerable to email spoofing."
    recommendation := "Implement DMARC policy to protect your domain from email spoofing." }

/-- The fixed issue pushed when DMARC is present but invalid. -/
def dmarcInvalidIssue : AttackSurfaceIssue :=
  { id := "dmarc-invalid", severity := .medium, category := "Email Security"
    title := "DMARC Record Invalid"
    description := "DMARC record exists but may be misconfigured."
    recommendation := "Review DMARC policy syntax and alignment settings." }

/-- The fixed issue pushed when the SOA lookup is empty. -/
def dnssecMissingIssue : AttackSurfaceIssue :=
  { id := "dnssec-missing", severity := .low, category := "DNSSEC"
    title := "DNSSEC Not Configured"
    description := "Domain does not appear to have DNSSEC enabled."
    recommendation := "Consider enabling DNSSEC to protect against DNS spoofing attacks." }

/-- The fixed issue pushed when no MX record is returned. -/
def mxMissingIssue : AttackSurfaceIssue :=
  { id := "mx-missing", severity := .medium, category := "Email Delivery"
    title := "MX Records Missing"
    description := "No MX records found. Domain cannot receive emails."
    recommendation := "Add MX records if you expect to receive emails." }

/-- The fixed issue pushed when fewer than 2 NS records are returned. -/
def nsInsufficientIssue : AttackSurfaceIssue :=
  { id := "ns-insufficient", severity := .low, category := "Infrastructure"
    title := "Insufficient Nameservers"
    description := "Domain has fewer than 2 nameservers, which may affect redundancy."
    recommendation := "Use at least 2 nameservers for redundancy." }

/-- The five `(domain, recordType)` queries issued by the `Promise.all`
fan-out at the top of `analyzeAttackSurface`, in source order:
spf, dmarc, dnssec, mx, ns. -/
def analyzeQueries (domain : String) : List (String × RecordType) :=
  [(domain, .TXT), (domain, .TXT), (domain, .SOA), (domain, .MX), (domain, .NS)]

/-- One `if (cond) { issues.push(issue); riskScore += delta; }` block of
`analyzeAttackSurface`, acting on the `(issues, riskScore)` state pair. -/
def ruleStep (cond : Bool) (issue : AttackSurfaceIssue) (delta : Int)
    (st : List AttackSurfaceIssue × Int) : List AttackSurfaceIssue × Int :=
  if cond then (st.1 ++ [issue], st.2 + delta) else st

/-- One two-armed `if (c1) {push i1; += d1} else if (c2) {push i2; += d2}`
block of `analyzeAttackSurface`. -/
def ruleStep2 (c1 : Bool) (i1 : AttackSurfaceIssue) (d1 : Int)
    (c2 : Bool) (i2 : AttackSurfaceIssue) (d2 : Int)
    (st : List AttackSurfaceIssue × Int) : List AttackSurfaceIssue × Int :=
  if c1 then (st.1 ++ [i1], st.2 + d1) else ruleStep c2 i2 d2 st

/-- The full sequence of rule blocks of `analyzeAttackSurface`, in
source order, starting from empty issues and score 0.  The seven
conditions are, in order: SPF absent, SPF invalid, DMARC absent,
DMARC invalid, DNSSEC absent, MX absent, NS count `< 2`. -/
def ruleChain (c1 c2 c3 c4 c5 c6 c7 : Bool) : List AttackSurfaceIssue × Int :=
  let st : List AttackSurfaceIssue × Int := ([], 0)
  let st := ruleStep2 c1 spfMissingIssue 25 c2 spfInvalidIssue 15 st
  let st := ruleStep2 c3 dmarcMissingIssue 25 c4 dmarcInvalidIssue 10 st
  let st := ruleStep c5 dnssecMissingIssue 10 st
  let st := ruleStep c6 mxMissingIssue 15 st
  ruleStep c7 nsInsufficientIssue 5 st

/-- `analyzeAttackSurface(domain)`, with the resolver supplied as an
oracle from `(domain, recordType)` to lookup result.  The mutable
`issues` array and `riskScore` accumulator are threaded as a pair
updated by each check's `if` block in source order (`ruleChain`). -/
def analyzeAttackSurface (resolve : String → RecordType → DNSLookupResult)
    (domain : String) : AttackSurfaceResult :=
  let spfResult := resolve domain .TXT
  let dmarcResult := resolve domain .TXT
  let dnssecResult := resolve domain .SOA
  let mxResult := resolve domain .MX
  let nsResult := resolve domain .NS
  let spfRecord := spfResult.records.find? (fun r => "v=spf1".data.isPrefixOf r.value.data)
  let dmarcRecord := dmarcResult.records.find? (fun r => "v=dmarc1".data.isPrefixOf r.value.data)
  let spf : EmailCheck :=
    { present := spfRecord.isSome
      valid := match spfRecord with
               | some r => decide ("v=spf1".data <:+: r.value.data)
               | none => false
      record := spfRecord.map (fun r => r.value) }
  let dmarc : EmailCheck :=
    { present := dmarcRecord.isSome
      valid := match dmarcRecord with
               | some r => decide ("v=dmarc1".data <:+: r.value.data)
               | none => false
      record := dmarcRecord.map (fun r => r.value) }
  let dnssec : DnssecCheck := { present := dnssecResult.records.length > 0, signed := false }
  let mx : RecordsCheck :=
    { present := mxResult.records.length > 0
      records := mxResult.records.map (fun r => r.value) }
  let ns : RecordsCheck :=
    { present := nsResult.records.length > 0
      records := nsResult.records.map (fun r => r.value) }
  let st := ruleChain (! spf.present) (! spf.valid) (! dmarc.present) (! dmarc.valid)
    (! dnssec.present) (! mx.present) (decide (ns.records.length < 2))
  { domain := domain
    riskScore := min st.2 100
    issues := st.1
    checks := { spf := spf, dmarc := dmarc, dnssec := dnssec, mx := mx, ns := ns } }

/-- The score delta contributed by each issue id, per the rule table of
the specification (used to relate `riskScore` to the fired rules). -/
def deltaOf : String → Int
  | "spf-missing" => 25
  | "spf-invalid" => 15
  | "dmarc-missing" => 25
  | "dmarc-invalid" => 10
  | "dnssec-missing" => 10
  | "mx-missing" => 15
  | "ns-insufficient" => 5
  | _ => 0

/-- Modelled from the spec: an SPF/DMARC-style presence check over a
TXT record list, parameterized only by the prefix searched for.  Used
to state that the SPF and DMARC checks inspect the same record list and
differ only in the prefix. -/
def prefixEmailCheck (pre : String) (records : List DNSRecord) : EmailCheck :=
  let found := records.find? (fun r => pre.data.isPrefixOf r.value.data)
  { present := found.isSome
    valid := match found with
             | some r => decide (pre.data <:+: r.value.data)
             | none => false
    record := found.map (fun r => r.value) }

/-- `GraphNode` from `InfrastructureGraph.tsx`. -/
structure GraphNode where
  id : String
  type : String
  label : String
  value : Option String := none
deriving DecidableEq, Repr

/-- `GraphLink` from `InfrastructureGraph.tsx`. -/
structure GraphLink where
  source : String
  target : String
  type : String
deriving DecidableEq, Repr

/-- The node/link set produced by `handleAnalyze`. -/
structure GraphData where
  nodes : List GraphNode
  links : List GraphLink
deriving DecidableEq, Repr

/-- The leaf nodes appended by one `records.forEach` block: per record
one node whose id is the template literal `<pre><value>` (e.g.
`a-1.2.3.4` for `pre = "a-"`). -/
def leafNodes (pre : String) (ty : String) (records : List DNSRecord) : List GraphNode :=
  records.map (fun r =>
    { id := pre ++ r.value, type := ty, label := r.value, value := some r.value })

/-- The links appended by one `records.forEach` block: per record one
link from the root domain to the corresponding leaf node id. -/
def leafLinks (pre : String) (linkType : String) (domain : String)
    (records : List DNSRecord) : List GraphLink :=
  records.map (fun r =>
    { source := domain, target := pre ++ r.value, type := linkType })

/-- The graph-construction section of `handleAnalyze`: seeds `nodes`
with the root domain node, fans out A, AAAA, MX, NS, CNAME lookups, and
appends one node and one link per returned record, in that fixed order. -/
def buildGraph (resolve : String → RecordType → DNSLookupResult)
    (cleanDomain : String) : GraphData :=
  let aResult := resolve cleanDomain .A
  let aaaaResult := resolve cleanDomain .AAAA
  let mxResult := resolve cleanDomain .MX
  let nsResult := resolve cleanDomain .NS
  let cnameResult := resolve cleanDomain .CNAME
  { nodes := [{ id := cleanDomain, type := "domain", label := cleanDomain }]
      ++ leafNodes "a-" "a" aResult.records
      ++ leafNodes "aaaa-" "aaaa" aaaaResult.records
      ++ leafNodes "mx-" "mx" mxResult.records
      ++ leafNodes "ns-" "ns" nsResult.records
      ++ leafNodes "cname-" "cname" cnameResult.records
    links := leafLinks "a-" "A" cleanDomain aResult.records
      ++ leafLinks "aaaa-" "AAAA" cleanDomain aaaaResult.records
      ++ leafLinks "mx-" "MX" cleanDomain mxResult.records
      ++ leafLinks "ns-" "NS" cleanDomain nsResult.records
      ++ leafLinks "cname-" "CNAME" cleanDomain cnameResult.records }

/-- `HistoryItem` (timestamp modelled as a Nat tick). -/
structure HistoryItem where
  id : String
  domain : String
  recordType : RecordType
  timestamp : Nat
deriving DecidableEq, Repr

/-- `saveHistory`: prepend the new item, drop any prior entry with the
same `(domain, recordType)` pair, and keep the first 20. -/
def saveHistory (history : List HistoryItem) (item : HistoryItem) : List HistoryItem :=
  (item :: history.filter
      (fun h => h.domain ≠ item.domain || h.recordType ≠ item.recordType)).take 20

/-- Folding a sequence of insertions through `saveHistory`, starting
from the empty history. -/
def runHistory (items : List HistoryItem) : List HistoryItem :=
  items.foldl saveHistory []

/-- Two history items collide exactly when both `domain` and
`recordType` agree. -/
def samePair (a b : HistoryItem) : Prop :=
  a.domain = b.domain ∧ a.recordType = b.recordType

instance : DecidablePred fun p : HistoryItem × HistoryItem => samePair p.1 p.2 :=
  fun _ => by unfold samePair; infer_instance

instance (a b : HistoryItem) : Decidable (samePair a b) := by
  unfold samePair; infer_instance

/-- Modelled from the spec: whether a fetched endpoint outcome is a
usable answer for `lookupDNS` — a 2xx response whose body is either
`Status = 0` with an `Answer` array present, or `Status = 3`. -/
def usableAnswer : FetchOutcome → Bool
  | .throws _ => false
  | .response httpStatus body =>
    httpOk httpStatus && (body.status = 0 && body.answer.isSome || body.status = 3)

/-- The per-endpoint error message that `lookupDNS` records for one
attempt: a message for a thrown fetch or a non-2xx HTTP status, and
`none` for any 2xx response (the silent fall-through branches included). -/
def endpointErrorMsg (server : String) : FetchOutcome → Option String
  | .throws msg => some ("Server " ++ server ++ " failed: " ++ msg)
  | .response httpStatus _ =>
    if httpOk httpStatus then none
    else some ("Server " ++ server ++ " returned " ++ toString httpStatus)

/-- Fixture: a fetch oracle whose every endpooint returns HTTP 200 with
body `Status = 2` (SERVFAIL) and no `Answer` array. -/
def status2Fetch : String → FetchOutcome :=
  fun _ => .response 200 { status := 2, answer := none }

/-- Fixture: a resolver that returns two A records with the same value
and nothing else. -/
def dupAResolve : String → RecordType → DNSLookupResult := fun d rt =>
  { domain := d, recordType := rt
    records := if rt = .A then
      [{ type := "A", name := "example.com", value := "1.2.3.4", ttl := 300 },
       { type := "A", name := "example.com", value := "1.2.3.4", ttl := 300 }] else [] }

/-- Fixture: a resolver that returns one A record and nothing else. -/
def oneAResolve : String → RecordType → DNSLookupResult := fun d rt =>
  { domain := d, recordType := rt
    records := if rt = .A then
      [{ type := "A", name := "example.com", value := "1.2.3.4", ttl := 300 }] else [] }

/-- Fixture: 21 history items with pairwise-distinct `(domain, recordType)`
pairs. -/
def historyItems21 : List HistoryItem :=
  (List.range 21).map (fun i =>
    { id := toString i, domain := "d" ++ toString i, recordType := .A, timestamp := i })

/-- Fixture: a history item. -/
def historyItemNew : HistoryItem :=
  { id := "new", domain := "example.com", recordType := .A, timestamp := 100 }

/-- Fixture: a one-element history holding an older entry with the same
`(domain, recordType)` pair as `historyItemNew`. -/
def historyOld : List HistoryItem :=
  [{ id := "old", domain := "example.com", recordType := .A, timestamp := 1 }]

/-- Helper: a `prefixEmailCheck` is `valid` exactly when it is
`present`, because the record found by the presence search starts with
the prefix and therefore also contains it. -/
theorem emailCheck_valid_eq_present (pre : String) (records : List DNSRecord) :
    (prefixEmailCheck pre records).valid = (prefixEmailCheck pre records).present := by
  unfold prefixEmailCheck
  cases h : records.find? (fun r => pre.data.isPrefixOf r.value.data) with
  | none => simp [h]
  | some r =>
    have hp := List.find?_some h
    simp only [ List.isPrefixOf_iff_prefix] at hp
    simp [h, List.IsPrefix.isInfix hp]

/-- Helper: the spf and dmarc checks of `analyzeAttackSurface` are
instances of `prefixEmailCheck` over the TXT lookup's records. -/
theorem analyze_checks_eq (resolve : String → RecordType → DNSLookupResult)
    (domain : String) :
    (analyzeAttackSurface resolve domain).checks.spf =
      prefixEmailCheck "v=spf1" (resolve domain .TXT).records ∧
    (analyzeAttackSurface resolve domain).checks.dmarc =
      prefixEmailCheck "v=dmarc1" (resolve domain .TXT).records := by
  constructor <;> rfl

/-- Helper: for every combination of rule conditions, the issue list
and the accumulated score of `ruleChain` agree (the score is the sum of
the fired rules' deltas) and the score lies in `[0, 80]`. -/
theorem ruleChain_spec :
    ∀ c1 c2 c3 c4 c5 c6 c7 : Bool,
      (((ruleChain c1 c2 c3 c4 c5 c6 c7).1.map (fun i => deltaOf i.id)).sum =
        (ruleChain c1 c2 c3 c4 c5 c6 c7).2) ∧
      0 ≤ (ruleChain c1 c2 c3 c4 c5 c6 c7).2 ∧
      (ruleChain c1 c2 c3 c4 c5 c6 c7).2 ≤ 80 := by decide

/-- Helper: `analyzeAttackSurface` produces its issues and score
through `ruleChain` for some combination of conditions. -/
theorem analyze_as_ruleChain (resolve : String → RecordType → DNSLookupResult)
    (domain : String) :
    ∃ c1 c2 c3 c4 c5 c6 c7 : Bool,
      (analyzeAttackSurface resolve domain).issues = (ruleChain c1 c2 c3 c4 c5 c6 c7).1 ∧
      (analyzeAttackSurface resolve domain).riskScore =
        min (ruleChain c1 c2 c3 c4 c5 c6 c7).2 100 :=
  ⟨_, _, _, _, _, _, _, rfl, rfl⟩

/-- Helper: the risk score of `analyzeAttackSurface` equals the
unclamped sum of the fired rules' deltas, and that sum lies in
`[0, 80]`. -/
theorem analyze_score_eq (resolve : String → RecordType → DNSLookupResult)
    (domain : String) :
    (analyzeAttackSurface resolve domain).riskScore =
      ((analyzeAttackSurface resolve domain).issues.map (fun i => deltaOf i.id)).sum ∧
    0 ≤ ((analyzeAttackSurface resolve domain).issues.map (fun i => deltaOf i.id)).sum ∧
    ((analyzeAttackSurface resolve domain).issues.map (fun i => deltaOf i.id)).sum ≤ 80 := by
  obtain ⟨c1, c2, c3, c4, c5, c6, c7, hi, hr⟩ := analyze_as_ruleChain resolve domain
  obtain ⟨h1, h2, h3⟩ := ruleChain_spec c1 c2 c3 c4 c5 c6 c7
  rw [hi, hr, h1]
  omega

/-- Helper: the issues of `analyzeAttackSurface` are `ruleChain`
applied to the conditions computed from its own checks. -/
theorem analyze_issues_eq (resolve : String → RecordType → DNSLookupResult)
    (domain : String) :
    (analyzeAttackSurface resolve domain).issues =
      (ruleChain (! (analyzeAttackSurface resolve domain).checks.spf.present)
        (! (analyzeAttackSurface resolve domain).checks.spf.valid)
        (! (analyzeAttackSurface resolve domain).checks.dmarc.present)
        (! (analyzeAttackSurface resolve domain).checks.dmarc.valid)
        (! (analyzeAttackSurface resolve domain).checks.dnssec.present)
        (! (analyzeAttackSurface resolve domain).checks.mx.present)
        (decide ((analyzeAttackSurface resolve domain).checks.ns.records.length < 2))).1 := rfl

/-- Helper: when the SPF condition pair and the DMARC condition pair
each collapse to a single boolean, `ruleChain` never emits the
`spf-invalid` or `dmarc-invalid` issues. -/
theorem ruleChain_no_invalid :
    ∀ c1 c3 c5 c6 c7 : Bool, ∀ i ∈ (ruleChain c1 c1 c3 c3 c5 c6 c7).1,
      i.id ≠ "spf-invalid" ∧ i.id ≠ "dmarc-invalid" := by decide

/-- C1: for every `analyzeAttackSurface` run, `riskScore` is in
`[0, 100]` and equals the sum of the score deltas of exactly the rules
that fired (one issue per fired rule, deltas per the rule table),
clamped to at most 100 and never floored below 0. -/
theorem C1_riskScore_bounds_and_sum (resolve : String → RecordType → DNSLookupResult)
    (domain : String) :
    0 ≤ (analyzeAttackSurface resolve domain).riskScore ∧
    (analyzeAttackSurface resolve domain).riskScore ≤ 100 ∧
    (analyzeAttackSurface resolve domain).riskScore =
      min (((analyzeAttackSurface resolve domain).issues.map (fun i => deltaOf i.id)).sum) 100 := by
  obtain ⟨h1, h2, h3⟩ := analyze_score_eq resolve domain
  omega

/-- C2: the SPF check reports `present` iff some TXT record's value
starts with `v=spf1`, `valid` iff `present`; the DMARC check reports
`present` iff some TXT record's value starts with `v=dmarc1`
(case-sensitive), `valid` iff `present`; consequently no issue with id
`spf-invalid` or `dmarc-invalid` is ever emitted. -/
theorem C2_spf_dmarc_tautology (resolve : String → RecordType → DNSLookupResult)
    (domain : String) :
    ((analyzeAttackSurface resolve domain).checks.spf.present = true ↔
      ∃ r ∈ (resolve domain .TXT).records, "v=spf1".data <+: r.value.data) ∧
    (analyzeAttackSurface resolve domain).checks.spf.valid =
      (analyzeAttackSurface resolve domain).checks.spf.present ∧
    ((analyzeAttackSurface resolve domain).checks.dmarc.present = true ↔
      ∃ r ∈ (resolve domain .TXT).records, "v=dmarc1".data <+: r.value.data) ∧
    (analyzeAttackSurface resolve domain).checks.dmarc.valid =
      (analyzeAttackSurface resolve domain).checks.dmarc.present ∧
    ∀ i ∈ (analyzeAttackSurface resolve domain).issues,
      i.id ≠ "spf-invalid" ∧ i.id ≠ "dmarc-invalid" := by
  obtain ⟨hs, hd⟩ := analyze_checks_eq resolve domain
  have hsv := emailCheck_valid_eq_present "v=spf1" (resolve domain .TXT).records
  have hdv := emailCheck_valid_eq_present "v=dmarc1" (resolve domain .TXT).records
  refine ⟨?_, ?_, ?_, ?_, ?_⟩
  · rw [hs]; unfold prefixEmailCheck
    simp [ List.isPrefixOf_iff_prefix]
  · rw [hs, hsv]
  · rw [hd]; unfold prefixEmailCheck
    simp [ List.isPrefixOf_iff_prefix]
  · rw [hd, hdv]
  · rw [analyze_issues_eq resolve domain]
    rw [hs, hd, hsv, hdv]
    exact ruleChain_no_invalid _ _ _ _ _

/-- Helper: when every endpoint's fetched outcome is unusable,
`lookupAux` returns empty records and the joined error messages of all
attempts that record one. -/
theorem lookupAux_exhausted (fetch : String → FetchOutcome) (domain : String)
    (recordType : RecordType) :
    ∀ (servers : List String) (errors : List String),
      (∀ s ∈ servers, usableAnswer (fetch s) = false) →
      lookupAux fetch domain recordType servers errors =
        { domain := domain, recordType := recordType, records := []
          error := some ("All DNS servers failed: " ++ String.intercalate ", "
            (errors ++ servers.filterMap (fun s => endpointErrorMsg s (fetch s)))) } := by
  intro servers
  induction servers with
  | nil => intro errors _; simp [lookupAux]
  | cons server rest ih =>
    intro errors h
    have hhead := h server (List.mem_cons_self server rest)
    have htail : ∀ s ∈ rest, usableAnswer (fetch s) = false :=
      fun s hs => h s (List.mem_cons_of_mem server hs)
    cases hf : fetch server with
    | throws msg =>
      simp only [lookupAux, hf]
      rw [ih _ htail]
      simp [endpointErrorMsg, hf, List.append_assoc]
    | response httpStatus body =>
      rw [hf] at hhead
      unfold usableAnswer at hhead
      by_cases hok : httpOk httpStatus = true
      · simp only [hok] at hhead
        simp only [Bool.true_and] at hhead
        have h0 : ¬ (body.status = 0 ∧ body.answer.isSome = true) := by
          intro hc
          rw [hc.1, hc.2] at hhead
          simp at hhead
        have h3 : ¬ body.status = 3 := by
          intro hc
          rw [hc] at hhead
          simp at hhead
        simp only [lookupAux, hf]
        rw [if_neg (by simp [hok]), dif_neg h0, if_neg h3, ih _ htail]
        simp [endpointErrorMsg, hf, hok]
      · simp only [lookupAux, hf]
        rw [if_pos hok, ih _ htail]
        simp [endpointErrorMsg, hf, hok, List.append_assoc]

/-- C3 counterexample: with both endpoints answering HTTP 200 and body
`Status = 2` (neither usable nor an HTTP/transport failure), both
endpoint attempts fail yet no per-endpoint error message is recorded:
the final error string is bare, with no "Server ..." message in it,
contradicting "every ... other response status code encountered is
recorded as a per-endpoint error message ... (one per failed endpoint
attempt)". -/
theorem C3_counterexample :
    (lookupDNS status2Fetch "example.com" .A).records = [] ∧
    (lookupDNS status2Fetch "example.com" .A).error = some "All DNS servers failed: " ∧
    ¬ "Server".data <:+: "All DNS servers failed: ".data := by
  refine ⟨rfl, rfl, by decide⟩

/-- C3 (amended): when no endpoint yields a usable answer, the result
has empty records and an error string that joins exactly the per-
endpoint messages of the attempts that record one — transport failures
and non-2xx HTTP statuses; a 2xx response with any other body status
advances silently without recording a message. -/
theorem C3_amended_error_concat (fetch : String → FetchOutcome) (domain : String)
    (recordType : RecordType)
    (h : ∀ s ∈ DNS_OVER_HTTPS_SERVERS, usableAnswer (fetch s) = false) :
    (lookupDNS fetch domain recordType).records = [] ∧
    (lookupDNS fetch domain recordType).error =
      some ("All DNS servers failed: " ++ String.intercalate ", "
        (DNS_OVER_HTTPS_SERVERS.filterMap (fun s => endpointErrorMsg s (fetch s)))) := by
  unfold lookupDNS
  rw [lookupAux_exhausted fetch domain recordType DNS_OVER_HTTPS_SERVERS [] h]
  simp

/-- C3 witness: both endpoints throw, and the final error joins the two
recorded per-endpoint messages. -/
theorem C3_amended_error_concat_witness :
    (∀ s ∈ DNS_OVER_HTTPS_SERVERS,
      usableAnswer ((fun _ => FetchOutcome.throws "network error") s) = false) ∧
    (lookupDNS (fun _ => FetchOutcome.throws "network error") "example.com" .A).records = [] ∧
    (lookupDNS (fun _ => FetchOutcome.throws "network error") "example.com" .A).error =
      some ("All DNS servers failed: " ++ String.intercalate ", "
        (DNS_OVER_HTTPS_SERVERS.filterMap
          (fun s => endpointErrorMsg s ((fun _ => FetchOutcome.throws "network error") s)))) :=
  ⟨by decide, C3_amended_error_concat (fun _ => FetchOutcome.throws "network error")
    "example.com" .A (by decide)⟩

/-- C4: when all five sub-lookups return empty records, `riskScore`
is 80 and exactly five issues are produced, in insertion order
spf-missing, dmarc-missing, dnssec-missing, mx-missing,
ns-insufficient. -/
theorem C4_total_failure_score80 (resolve : String → RecordType → DNSLookupResult)
    (domain : String)
    (hTXT : (resolve domain .TXT).records = [])
    (hSOA : (resolve domain .SOA).records = [])
    (hMX : (resolve domain .MX).records = [])
    (hNS : (resolve domain .NS).records = []) :
    (analyzeAttackSurface resolve domain).riskScore = 80 ∧
    (analyzeAttackSurface resolve domain).issues.map (fun i => i.id) =
      ["spf-missing", "dmarc-missing", "dnssec-missing", "mx-missing", "ns-insufficient"] := by
  unfold analyzeAttackSurface
  dsimp only
  rw [hTXT, hSOA, hMX, hNS]
  constructor <;> rfl

/-- C4 witness: a resolver whose every lookup returns empty records. -/
theorem C4_total_failure_score80_witness :
    (analyzeAttackSurface (fun d rt => { domain := d, recordType := rt, records := [] })
      "example.com").riskScore = 80 ∧
    (analyzeAttackSurface (fun d rt => { domain := d, recordType := rt, records := [] })
      "example.com").issues.map (fun i => i.id) =
      ["spf-missing", "dmarc-missing", "dnssec-missing", "mx-missing", "ns-insufficient"] :=
  C4_total_failure_score80 _ "example.com" rfl rfl rfl rfl

/-- C5: when an endpoint's 2xx response has body `Status = 3`, the
client returns immediately — the result does not depend on the
remaining servers or on the rest of the oracle — with empty records and
an error string containing the literal substring "NXDOMAIN". -/
theorem C5_nxdomain_immediate (fetch : String → FetchOutcome) (domain : String)
    (recordType : RecordType) (server : String) (rest : List String)
    (errors : List String) (httpStatus : Nat) (body : DoHBody)
    (hf : fetch server = .response httpStatus body)
    (hok : httpOk httpStatus = true) (hs : body.status = 3) :
    lookupAux fetch domain recordType (server :: rest) errors =
      { domain := domain, recordType := recordType, records := []
        error := some "NXDOMAIN - Domain does not exist" } ∧
    lookupDNS (fun _ => .response httpStatus body) domain recordType =
      { domain := domain, recordType := recordType, records := []
        error := some "NXDOMAIN - Domain does not exist" } ∧
    "NXDOMAIN".data <:+: "NXDOMAIN - Domain does not exist".data := by
  have key : ∀ (srv : String) (rst : List String) (errs : List String)
      (f : String → FetchOutcome), f srv = .response httpStatus body →
      lookupAux f domain recordType (srv :: rst) errs =
        { domain := domain, recordType := recordType, records := []
          error := some "NXDOMAIN - Domain does not exist" } := by
    intro srv rst errs f hf2
    unfold lookupAux
    rw [hf2]
    simp [hok, hs]
  refine ⟨key server rest errors fetch hf, ?_, by decide⟩
  unfold lookupDNS DNS_OVER_HTTPS_SERVERS
  exact key _ _ _ _ rfl

/-- C5 witness: a first endpoint answering HTTP 200 with `Status = 3`. -/
theorem C5_nxdomain_immediate_witness :
    lookupAux (fun _ => FetchOutcome.response 200 { status := 3, answer := none })
      "example.com" .A ["https://dns.google/resolve"] [] =
      { domain := "example.com", recordType := .A, records := []
        error := some "NXDOMAIN - Domain does not exist" } :=
  (C5_nxdomain_immediate (fun _ => FetchOutcome.response 200 { status := 3, answer := none })
    "example.com" .A "https://dns.google/resolve" [] [] 200
    { status := 3, answer := none } rfl rfl rfl).1

/-- C6: the graph is a star — exactly one node of type `domain` (the
root, listed first with id equal to the domain), one node and one link
per record across the five lookups, every link's source is the root,
and every leaf node's id is its lowercased type prefix, a dash, and the
record value. -/
theorem C6_star_graph_shape (resolve : String → RecordType → DNSLookupResult)
    (domain : String) :
    (buildGraph resolve domain).nodes.length =
       1 + ((resolve domain .A).records.length + (resolve domain .AAAA).records.length
        + (resolve domain .MX).records.length + (resolve domain .NS).records.length
        + (resolve domain .CNAME).records.length) ∧
    (buildGraph resolve domain).links.length =
      (resolve domain .A).records.length + (resolve domain .AAAA).records.length
        + (resolve domain .MX).records.length + (resolve domain .NS).records.length
        + (resolve domain .CNAME).records.length ∧
    ((buildGraph resolve domain).nodes.filter (fun n => n.type = "domain")).length = 1 ∧
    (buildGraph resolve domain).nodes.head? =
      some { id := domain, type := "domain", label := domain } ∧
    (∀ l ∈ (buildGraph resolve domain).links, l.source = domain) ∧
    (∀ n ∈ (buildGraph resolve domain).nodes.tail,
      n.id = n.type ++ "-" ++ n.label ∧ n.value = some n.label ∧
      n.type ∈ (["a", "aaaa", "mx", "ns", "cname"] : List String)) := by
  refine ⟨?_, ?_, ?_, rfl, ?_, ?_⟩
  · simp [buildGraph, leafNodes]
    omega
  · simp [buildGraph, leafLinks]
    omega
  · simp only [buildGraph, List.filter_append, List.length_append]
    have hleaf : ∀ (pre ty : String) (records : List DNSRecord), ty ≠ "domain" →
        (leafNodes pre ty records).filter (fun n => n.type = "domain") = [] := by
      intro pre ty records hty
      simp [leafNodes, List.filter_map, List.filter_eq_nil_iff]
      intro r _
      simp [hty]
    rw [hleaf _ _ _ (by decide), hleaf _ _ _ (by decide), hleaf _ _ _ (by decide),
      hleaf _ _ _ (by decide), hleaf _ _ _ (by decide)]
    rfl
  · intro l hl
    simp only [buildGraph, List.mem_append] at hl
    rcases hl with ((((h | h) | h) | h) | h) <;>
      · simp only [leafLinks, List.mem_map] at h
        obtain ⟨r, _, hr⟩ := h
        rw [← hr]
  · intro n hn
    have hcons : (buildGraph resolve domain).nodes =
        { id := domain, type := "domain", label := domain } ::
          (leafNodes "a-" "a" (resolve domain .A).records
            ++ leafNodes "aaaa-" "aaaa" (resolve domain .AAAA).records
            ++ leafNodes "mx-" "mx" (resolve domain .MX).records
            ++ leafNodes "ns-" "ns" (resolve domain .NS).records
            ++ leafNodes "cname-" "cname" (resolve domain .CNAME).records) := by
      simp [buildGraph]
    rw [hcons] at hn
    simp only [List.tail_cons, List.mem_append] at hn
    have hone : ∀ (pre ty : String) (records : List DNSRecord),
        (pre = ty ++ "-") → ty ∈ (["a", "aaaa", "mx", "ns", "cname"] : List String) →
        ∀ m ∈ leafNodes pre ty records,
          m.id = m.type ++ "-" ++ m.label ∧ m.value = some m.label ∧
          m.type ∈ (["a", "aaaa", "mx", "ns", "cname"] : List String) := by
      intro pre ty records hpre hty m hm
      simp only [leafNodes, List.mem_map] at hm
      obtain ⟨r, _, hr⟩ := hm
      subst hr
      refine ⟨?_, rfl, hty⟩
      simp only
      rw [hpre, String.append_assoc]
    rcases hn with ((((h | h) | h) | h) | h)
    · exact hone "a-" "a" _ (by decide) (by decide) _ h
    · exact hone "aaaa-" "aaaa" _ (by decide) (by decide) _ h
    · exact hone "mx-" "mx" _ (by decide) (by decide) _ h
    · exact hone "ns-" "ns" _ (by decide) (by decide) _ h
    · exact hone "cname-" "cname" _ (by decide) (by decide) _ h

/-- Helper: two strings built from incomparable prefixes are never
equal, whatever is appended. -/
theorem ne_of_prefix_incomparable {p q : String} (hp : ¬ p.data <+: q.data)
    (hq : ¬ q.data <+: p.data) (v w : String) : p ++ v ≠ q ++ w := by
  intro h
  have hd : p.data ++ v.data = q.data ++ w.data := by
    rw [← String.data_append, ← String.data_append, h]
  have h1 : p.data <+: q.data ++ w.data := hd ▸ List.prefix_append p.data v.data
  have h2 : q.data <+: q.data ++ w.data := List.prefix_append q.data w.data
  rcases List.prefix_or_prefix_of_prefix h1 h2 with h' | h'
  exacts [hp h', hq h']

/-- Helper: prefixing every mapped value with the same string keeps the
list duplicate-free. -/
theorem mapped_nodup {α : Type} (p : String) (f : α → String) (l : List α)
    (h : (l.map f).Nodup) : (l.map (fun x => p ++ f x)).Nodup := by
  have hinj : Function.Injective (fun v : String => p ++ v) := by
    intro a b hab
    simp only at hab
    have h2 : p.data ++ a.data = p.data ++ b.data := by
      rw [← String.data_append, ← String.data_append, hab]
    exact String.ext (List.append_cancel_left h2)
  have h2 := h.map hinj
  rw [List.map_map] at h2
  exact h2

/-- Helper: values built from two incomparable prefixes form disjoint
lists. -/
theorem disjoint_mapped {α β : Type} {p q : String} (hp : ¬ p.data <+: q.data)
    (hq : ¬ q.data <+: p.data) (f : α → String) (g : β → String)
    (l₁ : List α) (l₂ : List β) :
    List.Disjoint (l₁.map (fun x => p ++ f x)) (l₂.map (fun x => q ++ g x)) := by
  intro x hx hy
  simp only [List.mem_map] at hx hy
  obtain ⟨a, _, ha⟩ := hx
  obtain ⟨b, _, hb⟩ := hy
  exact ne_of_prefix_incomparable hp hq (f a) (g b) (ha.trans hb.symm)

/-- Helper: a string that does not start with `p` is not among strings
built by prefixing with `p`. -/
theorem not_mem_mapped {α : Type} {p d : String} (hp : ¬ p.data <+: d.data)
    (f : α → String) (l : List α) : d ∉ l.map (fun x => p ++ f x) := by
  intro hm
  simp only [List.mem_map] at hm
  obtain ⟨v, _, hv⟩ := hm
  apply hp
  rw [← hv, String.data_append]
  exact List.prefix_append _ _

/-- C7 counterexample: two A records with the same literal value
produce two distinct nodes with the identical id `a-1.2.3.4`, so the
node list is not keyed by unique id. -/
theorem C7_counterexample :
    ((buildGraph dupAResolve "example.com").nodes.map (fun n => n.id)) =
      ["example.com", "a-1.2.3.4", "a-1.2.3.4"] ∧
    ¬ ((buildGraph dupAResolve "example.com").nodes.map (fun n => n.id)).Nodup := by
  exact ⟨rfl, by decide⟩

/-- C7 (amended): node ids are pairwise distinct provided each record
value appears at most once within its record type and the root domain
does not itself start with one of the five leaf prefixes; in
particular, equal values under two different record types never
collide, because the type prefix differs. -/
theorem C7_amended_unique_ids (resolve : String → RecordType → DNSLookupResult)
    (domain : String)
    (hA : ((resolve domain .A).records.map (fun r => r.value)).Nodup)
    (hAAAA : ((resolve domain .AAAA).records.map (fun r => r.value)).Nodup)
    (hMX : ((resolve domain .MX).records.map (fun r => r.value)).Nodup)
    (hNS : ((resolve domain .NS).records.map (fun r => r.value)).Nodup)
    (hCNAME : ((resolve domain .CNAME).records.map (fun r => r.value)).Nodup)
    (hdom : ∀ pre ∈ (["a-", "aaaa-", "mx-", "ns-", "cname-"] : List String),
      ¬ pre.data <+: domain.data) :
    ((buildGraph resolve domain).nodes.map (fun n => n.id)).Nodup := by
  have hmap : (buildGraph resolve domain).nodes.map (fun n => n.id) =
      domain ::
        ((resolve domain .A).records.map (fun r => "a-" ++ r.value)
          ++ (resolve domain .AAAA).records.map (fun r => "aaaa-" ++ r.value)
          ++ (resolve domain .MX).records.map (fun r => "mx-" ++ r.value)
          ++ (resolve domain .NS).records.map (fun r => "ns-" ++ r.value)
          ++ (resolve domain .CNAME).records.map (fun r => "cname-" ++ r.value)) := by
    simp [buildGraph, leafNodes, Function.comp_def]
  rw [hmap, List.nodup_cons]
  have hdA := hdom "a-" (by decide)
  have hdAAAA := hdom "aaaa-" (by decide)
  have hdMX := hdom "mx-" (by decide)
  have hdNS := hdom "ns-" (by decide)
  have hdCNAME := hdom "cname-" (by decide)
  constructor
  · simp only [List.mem_append]
    rintro ((((h | h) | h) | h) | h)
    · exact not_mem_mapped hdA (fun r : DNSRecord => r.value) _ h
    · exact not_mem_mapped hdAAAA (fun r : DNSRecord => r.value) _ h
    · exact not_mem_mapped hdMX (fun r : DNSRecord => r.value) _ h
    · exact not_mem_mapped hdNS (fun r : DNSRecord => r.value) _ h
    · exact not_mem_mapped hdCNAME (fun r : DNSRecord => r.value) _ h
  · simp only [List.nodup_append, List.disjoint_append_right, List.disjoint_append_left]
    repeat' apply And.intro
    all_goals first
      | exact mapped_nodup _ (fun r : DNSRecord => r.value) _ hA
      | exact mapped_nodup _ (fun r : DNSRecord => r.value) _ hAAAA
      | exact mapped_nodup _ (fun r : DNSRecord => r.value) _ hMX
      | exact mapped_nodup _ (fun r : DNSRecord => r.value) _ hNS
      | exact mapped_nodup _ (fun r : DNSRecord => r.value) _ hCNAME
      | exact disjoint_mapped (by decide) (by decide)
          (fun r : DNSRecord => r.value) (fun r : DNSRecord => r.value) _ _

/-- C7 witness: a single A record, duplicate-free per type, with a root
domain not starting with any leaf prefix. -/
theorem C7_amended_unique_ids_witness :
    ((oneAResolve "example.com" .A).records.map (fun r => r.value)).Nodup ∧
    (∀ pre ∈ (["a-", "aaaa-", "mx-", "ns-", "cname-"] : List String),
      ¬ pre.data <+: "example.com".data) ∧
    ((buildGraph oneAResolve "example.com").nodes.map (fun n => n.id)).Nodup :=
  ⟨by decide, by decide,
    C7_amended_unique_ids oneAResolve "example.com" (by decide) (by decide) (by decide)
      (by decide) (by decide) (by decide)⟩

/-- Helper: the new item is always at the front of the updated
history. -/
theorem saveHistory_head (history : List HistoryItem) (item : HistoryItem) :
    (saveHistory history item).head? = some item := by
  have h : saveHistory history item =
      item :: (history.filter
        (fun h => h.domain ≠ item.domain || h.recordType ≠ item.recordType)).take 19 := rfl
  rw [h]
  rfl

/-- Helper: exactly one entry of the updated history carries the
inserted `(domain, recordType)` pair. -/
theorem saveHistory_countP (history : List HistoryItem) (item : HistoryItem) :
    (saveHistory history item).countP (fun h => decide (samePair h item)) = 1 := by
  have heq : saveHistory history item =
      item :: (history.filter
        (fun h => h.domain ≠ item.domain || h.recordType ≠ item.recordType)).take 19 := rfl
  rw [heq, List.countP_cons]
  have hself : decide (samePair item item) = true := by
    simp [samePair]
  rw [hself]
  have hzero : ((history.filter
      (fun h => h.domain ≠ item.domain || h.recordType ≠ item.recordType)).take 19).countP
        (fun h => decide (samePair h item)) = 0 := by
    rw [List.countP_eq_zero]
    intro a ha
    have ha2 := List.mem_of_mem_take ha
    have hfa := (List.mem_filter.mp ha2).2
    simp only [Bool.or_eq_true, decide_eq_true_eq] at hfa
    simp only [samePair, decide_eq_true_eq]
    rcases hfa with h | h
    · intro hc; exact h hc.1
    · intro hc; exact h hc.2
  rw [hzero]
  decide

/-- Helper: `saveHistory` caps the history at 20 entries. -/
theorem saveHistory_le (history : List HistoryItem) (item : HistoryItem) :
    (saveHistory history item).length ≤ 20 :=
  List.length_take_le 20 _

/-- Helper: `saveHistory` preserves pairwise-distinct
`(domain, recordType)` pairs. -/
theorem saveHistory_pairwise (history : List HistoryItem) (item : HistoryItem)
    (hp : history.Pairwise (fun a b => ¬ samePair a b)) :
    (saveHistory history item).Pairwise (fun a b => ¬ samePair a b) := by
  apply List.Pairwise.sublist (List.take_sublist _ _)
  rw [List.pairwise_cons]
  constructor
  · intro b hb
    have hfb := (List.mem_filter.mp hb).2
    simp only [Bool.or_eq_true, decide_eq_true_eq] at hfb
    simp only [samePair]
    rcases hfb with h | h
    · intro hc; exact h hc.1.symm
    · intro hc; exact h hc.2.symm
  · exact hp.filter _

/-- Helper: every sequence of insertions from the empty history keeps
the list at 20 entries or fewer with pairwise-distinct pairs. -/
theorem runHistory_inv (items : List HistoryItem) :
    (runHistory items).length ≤ 20 ∧
    (runHistory items).Pairwise (fun a b => ¬ samePair a b) := by
  have key : ∀ (l : List HistoryItem) (acc : List HistoryItem),
      acc.length ≤ 20 → acc.Pairwise (fun a b => ¬ samePair a b) →
      (l.foldl saveHistory acc).length ≤ 20 ∧
      (l.foldl saveHistory acc).Pairwise (fun a b => ¬ samePair a b) := by
    intro l
    induction l with
    | nil => intro acc h1 h2; exact ⟨h1, h2⟩
    | cons x xs ih =>
      intro acc _ h2
      exact ih (saveHistory acc x) (saveHistory_le acc x) (saveHistory_pairwise acc x h2)
  exact key items [] (by simp) (by simp)

/-- Helper: inserting items with pairwise-distinct pairs retains the 20
most recent, newest first. -/
theorem runHistory_distinct (items : List HistoryItem)
    (h : items.Pairwise (fun a b => ¬ samePair a b)) :
    runHistory items = items.reverse.take 20 := by
  induction items using List.reverseRecOn with
  | nil => rfl
  | append_singleton xs x ih =>
    rw [List.pairwise_append] at h
    obtain ⟨hxs, _, hcross⟩ := h
    have hstep : runHistory (xs ++ [x]) = saveHistory (runHistory xs) x := by
      unfold runHistory
      rw [List.foldl_append]
      rfl
    rw [hstep, ih hxs]
    unfold saveHistory
    have hfil : (xs.reverse.take 20).filter
        (fun h => h.domain ≠ x.domain || h.recordType ≠ x.recordType) =
        xs.reverse.take 20 := by
      rw [List.filter_eq_self]
      intro a ha
      have ha2 : a ∈ xs := by
        have := List.mem_of_mem_take ha
        exact List.mem_reverse.mp this
      have hax := hcross a ha2 x (List.mem_singleton_self x)
      simp only [samePair] at hax
      simp only [Bool.or_eq_true, decide_eq_true_eq]
      by_cases hd : a.domain = x.domain
      · right; intro hr; exact hax ⟨hd, hr⟩
      · left; exact hd
    rw [hfil]
    have htake : (x :: xs.reverse.take 20).take 20 = x :: (xs.reverse.take 20).take 19 := rfl
    rw [htake, List.take_take]
    simp [List.reverse_append]

/-- C8: the history always holds at most 20 entries with
pairwise-distinct `(domain, recordType)` pairs; inserting a pair puts
the new item at the front with exactly one entry carrying that pair
(evicting any older duplicate); and inserting distinct pairs retains
only the 20 most recent, newest first. -/
theorem C8_history_invariants (items : List HistoryItem) (history : List HistoryItem)
    (item : HistoryItem) :
    (runHistory items).length ≤ 20 ∧
    (runHistory items).Pairwise (fun a b => ¬ samePair a b) ∧
    (saveHistory history item).head? = some item ∧
    (saveHistory history item).countP (fun h => decide (samePair h item)) = 1 ∧
    (items.Pairwise (fun a b => ¬ samePair a b) →
      runHistory items = items.reverse.take 20) :=
  ⟨(runHistory_inv items).1, (runHistory_inv items).2, saveHistory_head history item,
    saveHistory_countP history item, fun h => runHistory_distinct items h⟩

/-- C8 witness: 21 distinct pairs retain the 20 most recent; inserting
over an older entry with the same pair keeps one entry at the front. -/
theorem C8_history_invariants_witness :
    ((runHistory historyItems21).length ≤ 20 ∧
      (runHistory historyItems21).Pairwise (fun a b => ¬ samePair a b) ∧
      (saveHistory historyOld historyItemNew).head? = some historyItemNew ∧
      (saveHistory historyOld historyItemNew).countP
        (fun h => decide (samePair h historyItemNew)) = 1) ∧
    runHistory historyItems21 = historyItems21.reverse.take 20 :=
  have h := C8_history_invariants historyItems21 historyOld historyItemNew
  ⟨⟨h.1, h.2.1, h.2.2.1, h.2.2.2.1⟩, h.2.2.2.2 (by decide)⟩

/-- C9: the accumulated risk score never exceeds 80, so the final clamp
at 100 never changes the value — the score equals the unclamped sum of
the fired rules' deltas and values 81–100 are unreachable. -/
theorem C9_riskScore_le_80 (resolve : String → RecordType → DNSLookupResult)
    (domain : String) :
    (analyzeAttackSurface resolve domain).riskScore ≤ 80 ∧
    (analyzeAttackSurface resolve domain).riskScore =
      ((analyzeAttackSurface resolve domain).issues.map (fun i => deltaOf i.id)).sum ∧
    min (((analyzeAttackSurface resolve domain).issues.map (fun i => deltaOf i.id)).sum) 100 =
      ((analyzeAttackSurface resolve domain).issues.map (fun i => deltaOf i.id)).sum := by
  obtain ⟨h1, h2, h3⟩ := analyze_score_eq resolve domain
  omega

/-- C10: the DMARC sub-check issues exactly the same query as the SPF
sub-check — a TXT lookup of the input domain itself — and under the
same upstream data both checks inspect the same TXT record list,
differing only in the prefix searched for. -/
theorem C10_same_txt_query (resolve : String → RecordType → DNSLookupResult)
    (domain : String) :
    (analyzeQueries domain)[0]? = some (domain, .TXT) ∧
    (analyzeQueries domain)[1]? = some (domain, .TXT) ∧
    (analyzeQueries domain)[0]? = (analyzeQueries domain)[1]? ∧
    (analyzeAttackSurface resolve domain).checks.spf =
      prefixEmailCheck "v=spf1" (resolve domain .TXT).records ∧
    (analyzeAttackSurface resolve domain).checks.dmarc =
      prefixEmailCheck "v=dmarc1" (resolve domain .TXT).records :=
  ⟨rfl, rfl, rfl, rfl, rfl⟩
